import Mathlib

/-!
Verification of the llm_host inference gateway against its design notes.

Each definition below is a shallow embedding of one function of the
repository (`app/limiter.py`, `app/model_router.py`, `app/vllm_client.py`,
`app/vllm_manager.py`); theorems settle the documented properties of those
functions.  Machine state (semaphore permits, deques, dictionaries, OS
processes and files) is passed explicitly; fallible operations return
`Except`.
-/

namespace LLMHost

/-- A FastAPI `HTTPException`: the status code and the human-readable detail
text it carries.  Both the admission controller and the forwarding proxy
signal failures by raising values of this one class. -/
structure HTTPException where
  status_code : Nat
  detail : String
  deriving DecidableEq, Repr

/-- `RateLimitConfig` (app/models.py): the two optional limits the
`RequestLimiter` reads.  `concurrent` is the global and per-key concurrency
limit, `tokens_per_minute` the per-key token budget. -/
structure RateLimitConfig where
  concurrent : Option Nat
  tokens_per_minute : Option Nat
  deriving DecidableEq, Repr

/-- The concurrency budgets of `RequestLimiter`: available permits of the
global semaphore, and available permits of each per-key semaphore.
`per_key_semaphores` is a `defaultdict`, so a key that has never been touched
has the full configured limit available; the budget of every key is therefore
total as a function. -/
structure LimiterState where
  globalAvail : Nat
  perKeyAvail : String → Nat

/-- `RequestLimiter.check_concurrent_limit` (app/limiter.py:32-64).
Returns the budget state after the call together with the `HTTPException`
raised, if any.  With no configured `concurrent` limit the check is skipped.
Otherwise the global semaphore is acquired non-blocking (a zero available
count means the 0.001s `wait_for` times out and a 429 is raised with nothing
held).  When a (truthy, i.e. non-empty) API key is given, the per-key
semaphore is acquired the same way; on its timeout the already-acquired
global permit is released before the 429 is raised. -/
def check_concurrent_limit (cfg : RateLimitConfig) (s : LimiterState)
    (api_key : Option String) : LimiterState × Option HTTPException :=
  match cfg.concurrent with
  | none => (s, none)
  | some _ =>
    if s.globalAvail = 0 then
      (s, some ⟨429, "达到全局并发连接数限制"⟩)
    else
      let s1 : LimiterState := ⟨s.globalAvail - 1, s.perKeyAvail⟩
      match api_key with
      | none => (s1, none)
      | some k =>
        if k = "" then (s1, none)
        else if s1.perKeyAvail k = 0 then
          ({ s1 with globalAvail := s1.globalAvail + 1 },
            some ⟨429, "达到该API Key的并发连接数限制"⟩)
        else
          ({ s1 with perKeyAvail := fun k2 =>
              if k2 = k then s1.perKeyAvail k2 - 1 else s1.perKeyAvail k2 }, none)

/-- The eviction loop of `RequestLimiter.check_token_limit`
(app/limiter.py:85-86): pop entries from the front of the key's deque while
the front entry is `< now - 60`.  NOTE (faithful to the source): the entries
of the deque are the token counts recorded by earlier calls — line 98 appends
`tokens`, not a timestamp — yet this loop compares them against the clock
value `now - 60`. -/
def evictOld (now : Int) : List Int → List Int
  | [] => []
  | t :: rest => if t < now - 60 then evictOld now rest else t :: rest

/-- `RequestLimiter.check_token_limit` (app/limiter.py:76-98) for one key:
given the key's deque, the current clock and the estimated token count,
returns the deque after the call and the `HTTPException` raised, if any.
Skipped when `tokens_per_minute` is falsy (absent or zero).  Otherwise old
entries are evicted, the remaining entries are summed, and the request is
rejected when `sum + tokens` exceeds the budget; on success `tokens` is
appended to the deque. -/
def check_token_limit (cfg : RateLimitConfig) (usage_queue : List Int)
    (now : Int) (tokens : Int) : List Int × Option HTTPException :=
  match cfg.tokens_per_minute with
  | none => (usage_queue, none)
  | some tpm =>
    if tpm = 0 then (usage_queue, none)
    else
      let q := evictOld now usage_queue
      let current_usage := q.sum
      if current_usage + tokens > (tpm : Int) then
        (q, some ⟨429, "Token使用量超限（限制: " ++ toString tpm ++ "/分钟）"⟩)
      else (q ++ [tokens], none)

/-- Claim C3: whenever a concurrency limit is configured, the global
acquisition succeeds (a permit is available) and the per-key acquisition then
fails (that key has no permit available), `check_concurrent_limit` rejects
with a 429 and the resulting budget state is exactly the state before the
call: the global permit taken first has been released again, and no per-key
budget changed. -/
theorem check_concurrent_rejected_restores_state
    (cfg : RateLimitConfig) (l : Nat) (s : LimiterState) (k : String)
    (hcfg : cfg.concurrent = some l)
    (hglobal : 0 < s.globalAvail)
    (hkey : k ≠ "")
    (hperkey : s.perKeyAvail k = 0) :
    check_concurrent_limit cfg s (some k)
      = (s, some ⟨429, "达到该API Key的并发连接数限制"⟩) := by
  have hg : ¬ s.globalAvail = 0 := Nat.pos_iff_ne_zero.mp hglobal
  simp only [check_concurrent_limit, hcfg, hg, if_false, hkey, hperkey, if_true]
  have hrestore : s.globalAvail - 1 + 1 = s.globalAvail :=
    Nat.succ_pred_eq_of_pos hglobal
  cases s with
  | mk g p => simp_all

/-- Witness for C3 at a concrete input: three global permits available, the
key `k1` exhausted. -/
theorem check_concurrent_rejected_restores_state_witness :
    check_concurrent_limit ⟨some 5, none⟩ ⟨3, fun _ => 0⟩ (some "k1")
      = (⟨3, fun _ => 0⟩, some ⟨429, "达到该API Key的并发连接数限制"⟩) :=
  check_concurrent_rejected_restores_state ⟨some 5, none⟩ 5 ⟨3, fun _ => 0⟩ "k1"
    rfl (by decide) (by decide) rfl

/-- Claim C1 (code bug), the code evaluated at the failing input: with a
budget of 100 tokens per minute, one key sends 60 tokens at t=1700000000,
40 tokens at t=1700000010 and 1 token at t=1700000020 — all inside one 60s
window.  The claim requires the third request to be rejected (100 tokens are
already recorded in the window), but every call finds the previously recorded
sample evicted — the deque stores token counts, and any realistic clock makes
`tokenCount < now - 60` true — so the recorded usage never accumulates
(`r2` holds `[40]`, not `[60, 40]`) and the third request is allowed. -/
theorem token_window_never_accumulates :
    (check_token_limit ⟨none, some 100⟩ [] 1700000000 60).2 = none
    ∧ (check_token_limit ⟨none, some 100⟩ [] 1700000000 60).1 = [60]
    ∧ (check_token_limit ⟨none, some 100⟩ [60] 1700000010 40).2 = none
    ∧ (check_token_limit ⟨none, some 100⟩ [60] 1700000010 40).1 = [40]
    ∧ (check_token_limit ⟨none, some 100⟩ [40] 1700000020 1).2 = none := by
  decide

/-- `BackendType` (app/models.py): the two engine classes. -/
inductive BackendType where
  | vllm
  | sglang
  deriving DecidableEq, Repr

/-- `BackendEndpoint` (app/model_router.py:14-18): a registered backend
instance.  `instance_id` is the normalized base URL. -/
structure BackendEndpoint where
  backend : BackendType
  base_url : String
  instance_id : String
  deriving DecidableEq, Repr

/-- A Python value as it comes out of `response.json()`: the JSON-shaped
fragment of Python's data model that `_extract_model_ids` inspects. -/
inductive PyVal where
  | pynone
  | pybool (b : Bool)
  | pyint (n : Int)
  | pystr (s : String)
  | pylist (items : List PyVal)
  | pydict (entries : List (String × PyVal))

/-- `d.get(key)` on a Python dict.  A dict holds one entry per key, so the
first match in the entry list is the binding. -/
def dictGet (key : String) (entries : List (String × PyVal)) : Option PyVal :=
  entries.lookup key

/-- `ModelRouter._extract_model_ids` (app/model_router.py:218-231): from an
arbitrary payload, keep the `"id"` fields that are non-empty strings of the
dict entries of a list-valued `"data"` field; any other shape yields `[]`. -/
def extract_model_ids (payload : PyVal) : List String :=
  match payload with
  | .pydict entries =>
    match dictGet "data" entries with
    | some (.pylist items) =>
      items.filterMap fun item =>
        match item with
        | .pydict ientries =>
          match dictGet "id" ientries with
          | some (.pystr mid) => if mid = "" then none else some mid
          | _ => none
        | _ => none
    | _ => []
  | _ => []

/-- The discovered table `ModelRouter._discovered`: model name to
(backend type, base URL), as an association list in insertion order. -/
abbrev DiscoveredTable := List (String × (BackendType × String))

/-- The manual table `ModelRouter._manual`: model name to backend type plus
an optional explicit URL (`None` in the current config paths). -/
abbrev ManualTable := List (String × (BackendType × Option String))

/-- Assignment `d[k] = v` on a Python dict modelled as an association list:
replace in place when the key exists, append otherwise. -/
def tableInsert (k : String) (v : BackendType × String) :
    DiscoveredTable → DiscoveredTable
  | [] => [(k, v)]
  | (k2, v2) :: rest =>
    if k2 = k then (k2, v) :: rest else (k2, v2) :: tableInsert k v rest

/-- The per-model-id body of the discovery loop
(app/model_router.py:173-190): skip an id covered by the manual table; if the
id is already in this pass's table under a different backend or URL, log a
conflict and leave the table unchanged (the existing claimant stays);
otherwise record the claimant. -/
def refreshStep (manual : ManualTable) (ep : BackendEndpoint)
    (discovered : DiscoveredTable) (mid : String) : DiscoveredTable :=
  if (manual.lookup mid).isSome then discovered
  else
    match discovered.lookup mid with
    | some (b, u) =>
      if b ≠ ep.backend ∨ u ≠ ep.base_url then discovered
      else tableInsert mid (ep.backend, ep.base_url) discovered
    | none => tableInsert mid (ep.backend, ep.base_url) discovered

/-- What fetching `GET base_url/v1/models` from one instance produced:
`none` when the request raised, timed out or returned a non-200 status (the
instance is skipped), `some payload` for a 200 response with its decoded
JSON body. -/
abbrev FetchResult := Option PyVal

/-- The per-instance body of `ModelRouter.refresh_models`
(app/model_router.py:158-199): a failed instance contributes nothing; a
successful one folds `refreshStep` over its extracted model ids. -/
def refreshInstance (manual : ManualTable) (discovered : DiscoveredTable)
    (ep : BackendEndpoint) (result : FetchResult) : DiscoveredTable :=
  match result with
  | none => discovered
  | some payload => (extract_model_ids payload).foldl (refreshStep manual ep) discovered

/-- `ModelRouter.refresh_models` (app/model_router.py:153-208): starting from
an empty table, fold every registered instance's fetch result in registration
order; the result replaces `_discovered` wholesale. -/
def refresh_models (manual : ManualTable)
    (responses : List (BackendEndpoint × FetchResult)) : DiscoveredTable :=
  responses.foldl (fun disc r => refreshInstance manual disc r.1 r.2) []

/-- The `ModelRouter` state the resolution claims need: the registered
instances in registration order, and the two mapping tables. -/
structure ModelRouter where
  backends : List BackendEndpoint
  discovered : DiscoveredTable
  manual : ManualTable
  deriving DecidableEq, Repr

/-- `ModelRouter.get_backend_for_model` (app/model_router.py:106-124): an
empty model resolves to nothing; a manual entry wins, resolving to its
explicit URL or else to the first registered instance of its backend type;
otherwise the discovered table is consulted. -/
def get_backend_for_model (router : ModelRouter) (model : String) :
    Option (BackendType × String) :=
  if model = "" then none
  else
    match router.manual.lookup model with
    | some (bt, some url) => some (bt, url)
    | some (bt, none) =>
      match router.backends.find? (fun ep => ep.backend == bt) with
      | some ep => some (bt, ep.base_url)
      | none => none
    | none => router.discovered.lookup model

/-- The state change `refresh_models` commits (app/model_router.py:201):
`self._discovered = discovered` — the old discovered table is discarded. -/
def applyRefresh (router : ModelRouter)
    (responses : List (BackendEndpoint × FetchResult)) : ModelRouter :=
  { router with discovered := refresh_models router.manual responses }

theorem lookup_tableInsert_self (k : String) (v : BackendType × String) :
    ∀ t : DiscoveredTable, (tableInsert k v t).lookup k = some v := by
  intro t
  induction t with
  | nil => simp [tableInsert, List.lookup]
  | cons hd rest ih =>
    obtain ⟨k2, v2⟩ := hd
    by_cases hk : k2 = k
    · subst hk
      simp [tableInsert, List.lookup]
    · have hbeq : (k == k2) = false := beq_eq_false_iff_ne.mpr (Ne.symm hk)
      simp [tableInsert, hk, List.lookup, hbeq, ih]

theorem lookup_tableInsert_ne (k m : String) (v : BackendType × String)
    (hne : m ≠ k) :
    ∀ t : DiscoveredTable, (tableInsert k v t).lookup m = t.lookup m := by
  intro t
  have hbeq : (m == k) = false := beq_eq_false_iff_ne.mpr hne
  induction t with
  | nil => simp [tableInsert, List.lookup, hbeq]
  | cons hd rest ih =>
    obtain ⟨k2, v2⟩ := hd
    by_cases hk : k2 = k
    · subst hk
      simp [tableInsert, List.lookup, hbeq]
    · simp [tableInsert, hk, List.lookup, ih]

theorem refreshStep_lookup_ne (manual : ManualTable) (ep : BackendEndpoint)
    (t : DiscoveredTable) (mid m : String) (hne : mid ≠ m) :
    (refreshStep manual ep t mid).lookup m = t.lookup m := by
  unfold refreshStep
  split
  · rfl
  · split
    · split
      · rfl
      · exact lookup_tableInsert_ne mid m _ (Ne.symm hne) t
    · exact lookup_tableInsert_ne mid m _ (Ne.symm hne) t

theorem refreshStep_preserves_some (manual : ManualTable) (ep : BackendEndpoint)
    (t : DiscoveredTable) (mid m : String) (p : BackendType × String)
    (h : t.lookup m = some p) :
    (refreshStep manual ep t mid).lookup m = some p := by
  by_cases hmid : mid = m
  · subst hmid
    obtain ⟨b, u⟩ := p
    unfold refreshStep
    rw [h]
    by_cases hman : (manual.lookup mid).isSome
    · simp only [hman, if_true]
      exact h
    · simp only [hman, Bool.false_eq_true, if_false]
      by_cases hcon : b ≠ ep.backend ∨ u ≠ ep.base_url
      · simp only [hcon, if_true]
        exact h
      · simp only [hcon, if_false]
        push_neg at hcon
        obtain ⟨hb, hu⟩ := hcon
        rw [hb, hu]
        exact lookup_tableInsert_self mid (ep.backend, ep.base_url) t
  · rw [refreshStep_lookup_ne manual ep t mid m hmid]
    exact h

theorem foldl_refreshStep_preserves_some (manual : ManualTable)
    (ep : BackendEndpoint) (m : String) (p : BackendType × String) :
    ∀ (mids : List String) (t : DiscoveredTable), t.lookup m = some p →
      ((mids.foldl (refreshStep manual ep) t).lookup m) = some p := by
  intro mids
  induction mids with
  | nil => intro t h; exact h
  | cons mid rest ih =>
    intro t h
    exact ih _ (refreshStep_preserves_some manual ep t mid m p h)

theorem refreshInstance_preserves_some (manual : ManualTable)
    (t : DiscoveredTable) (ep : BackendEndpoint) (r : FetchResult)
    (m : String) (p : BackendType × String) (h : t.lookup m = some p) :
    (refreshInstance manual t ep r).lookup m = some p := by
  cases r with
  | none => exact h
  | some payload => exact foldl_refreshStep_preserves_some manual ep m p _ t h

theorem refresh_fold_preserves_some (manual : ManualTable) (m : String)
    (p : BackendType × String) :
    ∀ (responses : List (BackendEndpoint × FetchResult)) (t : DiscoveredTable),
      t.lookup m = some p →
      ((responses.foldl (fun disc r => refreshInstance manual disc r.1 r.2) t).lookup m)
        = some p := by
  intro responses
  induction responses with
  | nil => intro t h; exact h
  | cons r rest ih =>
    intro t h
    exact ih _ (refreshInstance_preserves_some manual t r.1 r.2 m p h)

theorem foldl_refreshStep_claims (manual : ManualTable) (ep : BackendEndpoint)
    (m : String) (hman : manual.lookup m = none) :
    ∀ (mids : List String) (t : DiscoveredTable),
      (t.lookup m = none ∨ t.lookup m = some (ep.backend, ep.base_url)) →
      m ∈ mids →
      ((mids.foldl (refreshStep manual ep) t).lookup m)
        = some (ep.backend, ep.base_url) := by
  intro mids
  induction mids with
  | nil => intro t _ hmem; cases hmem
  | cons mid rest ih =>
    intro t ht hmem
    by_cases hmid : mid = m
    · subst hmid
      have hstep : (refreshStep manual ep t mid).lookup mid
          = some (ep.backend, ep.base_url) := by
        unfold refreshStep
        rw [hman]
        simp only [Option.isSome_none, Bool.false_eq_true, if_false]
        rcases ht with hnone | hsome
        · rw [hnone]
          exact lookup_tableInsert_self mid _ t
        · rw [hsome]
          simp only [ne_eq, not_true_eq_false, or_self, if_false]
          exact lookup_tableInsert_self mid _ t
      exact foldl_refreshStep_preserves_some manual ep mid _ rest _ hstep
    · have hmem2 : m ∈ rest := by
        cases hmem with
        | head => exact absurd rfl hmid
        | tail _ h => exact h
      refine ih _ ?_ hmem2
      rw [refreshStep_lookup_ne manual ep t mid m hmid]
      exact ht

/-- Claim C2 (counterexample): two distinct registered instances
(`http://a` and `http://b`, both vLLM) each report the single model `"m"`
with no manual entry; after the refresh, `resolve "m"` is `some
(vllm, "http://a")` — the first claimant keeps the mapping — not `NotFound`
as the claim states. -/
theorem refresh_conflict_drop_refuted :
    get_backend_for_model
      (applyRefresh
        ⟨[⟨BackendType.vllm, "http://a", "http://a"⟩,
          ⟨BackendType.vllm, "http://b", "http://b"⟩], [], []⟩
        [(⟨BackendType.vllm, "http://a", "http://a"⟩,
            some (PyVal.pydict
              [("data", PyVal.pylist [PyVal.pydict [("id", PyVal.pystr "m")]])])),
         (⟨BackendType.vllm, "http://b", "http://b"⟩,
            some (PyVal.pydict
              [("data", PyVal.pylist [PyVal.pydict [("id", PyVal.pystr "m")]])]))])
      "m" = some (BackendType.vllm, "http://a")
    ∧ get_backend_for_model
      (applyRefresh
        ⟨[⟨BackendType.vllm, "http://a", "http://a"⟩,
          ⟨BackendType.vllm, "http://b", "http://b"⟩], [], []⟩
        [(⟨BackendType.vllm, "http://a", "http://a"⟩,
            some (PyVal.pydict
              [("data", PyVal.pylist [PyVal.pydict [("id", PyVal.pystr "m")]])])),
         (⟨BackendType.vllm, "http://b", "http://b"⟩,
            some (PyVal.pydict
              [("data", PyVal.pylist [PyVal.pydict [("id", PyVal.pystr "m")]])]))])
      "m" ≠ none := by
  constructor
  · rfl
  · intro h
    simp only [get_backend_for_model, applyRefresh] at h
    revert h
    decide

/-- Claim C2 (amended): when two distinct registered instances both report a
model `m` in the same refresh pass with no manual entry for `m`, the instance
processed first keeps the discovered mapping and the later claim is discarded
(first-seen-wins), so `resolve m` afterwards returns the first claimant, not
NotFound. -/
theorem refresh_conflict_first_claimant_wins
    (router : ModelRouter) (epA epB : BackendEndpoint) (pA pB : PyVal)
    (m : String)
    (hm : m ≠ "")
    (hmanual : router.manual.lookup m = none)
    (hA : m ∈ extract_model_ids pA)
    (_hB : m ∈ extract_model_ids pB)
    (_hdiff : epA.backend ≠ epB.backend ∨ epA.base_url ≠ epB.base_url) :
    get_backend_for_model (applyRefresh router [(epA, some pA), (epB, some pB)]) m
      = some (epA.backend, epA.base_url) := by
  have hfirst : (refreshInstance router.manual [] epA (some pA)).lookup m
      = some (epA.backend, epA.base_url) := by
    exact foldl_refreshStep_claims router.manual epA m hmanual _ [] (Or.inl rfl) hA
  have htable : (refresh_models router.manual [(epA, some pA), (epB, some pB)]).lookup m
      = some (epA.backend, epA.base_url) := by
    unfold refresh_models
    simp only [List.foldl_cons, List.foldl_nil]
    exact refreshInstance_preserves_some router.manual _ epB (some pB) m _ hfirst
  simp only [get_backend_for_model, applyRefresh, hm, if_false, hmanual]
  exact htable

/-- Witness for the amended C2 at the concrete conflicting fleet of the
counterexample. -/
theorem refresh_conflict_first_claimant_wins_witness :
    get_backend_for_model
      (applyRefresh
        ⟨[⟨BackendType.vllm, "http://a", "http://a"⟩,
          ⟨BackendType.vllm, "http://b", "http://b"⟩], [], []⟩
        [(⟨BackendType.vllm, "http://a", "http://a"⟩,
            some (PyVal.pydict
              [("data", PyVal.pylist [PyVal.pydict [("id", PyVal.pystr "m")]])])),
         (⟨BackendType.vllm, "http://b", "http://b"⟩,
            some (PyVal.pydict
              [("data", PyVal.pylist [PyVal.pydict [("id", PyVal.pystr "m")]])]))])
      "m" = some (BackendType.vllm, "http://a") :=
  refresh_conflict_first_claimant_wins
    ⟨[⟨BackendType.vllm, "http://a", "http://a"⟩,
      ⟨BackendType.vllm, "http://b", "http://b"⟩], [], []⟩
    ⟨BackendType.vllm, "http://a", "http://a"⟩
    ⟨BackendType.vllm, "http://b", "http://b"⟩
    (PyVal.pydict [("data", PyVal.pylist [PyVal.pydict [("id", PyVal.pystr "m")]])])
    (PyVal.pydict [("data", PyVal.pylist [PyVal.pydict [("id", PyVal.pystr "m")]])])
    "m" (by decide) rfl (by decide) (by decide) (Or.inr (by decide))

theorem refreshStep_preserves_none_of_manual (manual : ManualTable)
    (ep : BackendEndpoint) (t : DiscoveredTable) (mid m : String)
    (hman : (manual.lookup m).isSome) (h : t.lookup m = none) :
    (refreshStep manual ep t mid).lookup m = none := by
  by_cases hmid : mid = m
  · subst hmid
    unfold refreshStep
    simp only [hman, if_true]
    exact h
  · rw [refreshStep_lookup_ne manual ep t mid m hmid]
    exact h

theorem foldl_refreshStep_preserves_none_of_manual (manual : ManualTable)
    (ep : BackendEndpoint) (m : String) (hman : (manual.lookup m).isSome) :
    ∀ (mids : List String) (t : DiscoveredTable), t.lookup m = none →
      ((mids.foldl (refreshStep manual ep) t).lookup m) = none := by
  intro mids
  induction mids with
  | nil => intro t h; exact h
  | cons mid rest ih =>
    intro t h
    exact ih _ (refreshStep_preserves_none_of_manual manual ep t mid m hman h)

theorem refresh_fold_preserves_none_of_manual (manual : ManualTable)
    (m : String) (hman : (manual.lookup m).isSome) :
    ∀ (responses : List (BackendEndpoint × FetchResult)) (t : DiscoveredTable),
      t.lookup m = none →
      ((responses.foldl (fun disc r => refreshInstance manual disc r.1 r.2) t).lookup m)
        = none := by
  intro responses
  induction responses with
  | nil => intro t h; exact h
  | cons r rest ih =>
    intro t h
    refine ih _ ?_
    cases hr : r.2 with
    | none => simpa [refreshInstance, hr] using h
    | some payload =>
      simp only [refreshInstance, hr]
      exact foldl_refreshStep_preserves_none_of_manual manual r.1 m hman _ t h

/-- Claim C4: a model `m` present in the manual table is never added to the
table a refresh pass builds (refresh skips every id covered by `manual`),
and resolution of `m` after committing the refresh is exactly what it was
before: the manual entry — in the registered-instance scenario of the claim,
the manually configured backend `Y` — still wins. -/
theorem manual_mapping_survives_refresh
    (router : ModelRouter) (responses : List (BackendEndpoint × FetchResult))
    (m : String) (e : BackendType × Option String)
    (hm : router.manual.lookup m = some e) :
    (refresh_models router.manual responses).lookup m = none
    ∧ get_backend_for_model (applyRefresh router responses) m
        = get_backend_for_model router m := by
  constructor
  · exact refresh_fold_preserves_none_of_manual router.manual m
      (by simp [hm]) responses [] rfl
  · by_cases hempty : m = ""
    · simp [get_backend_for_model, hempty]
    · obtain ⟨bt, url⟩ := e
      cases url with
      | none => simp [get_backend_for_model, applyRefresh, hempty, hm]
      | some u => simp [get_backend_for_model, applyRefresh, hempty, hm]

/-- Witness for C4: instance X at `http://x` serves `"m"`; the operator maps
`"m"` manually to the sglang engine; a refresh that still observes X serving
`"m"` leaves resolution of `"m"` on the manual mapping. -/
theorem manual_mapping_survives_refresh_witness :
    (refresh_models [("m", (BackendType.sglang, none))]
        [(⟨BackendType.vllm, "http://x", "http://x"⟩,
          some (PyVal.pydict
            [("data", PyVal.pylist [PyVal.pydict [("id", PyVal.pystr "m")]])]))]).lookup "m"
      = none
    ∧ get_backend_for_model
        (applyRefresh
          ⟨[⟨BackendType.vllm, "http://x", "http://x"⟩], [],
            [("m", (BackendType.sglang, none))]⟩
          [(⟨BackendType.vllm, "http://x", "http://x"⟩,
            some (PyVal.pydict
              [("data", PyVal.pylist [PyVal.pydict [("id", PyVal.pystr "m")]])]))])
        "m"
      = get_backend_for_model
          ⟨[⟨BackendType.vllm, "http://x", "http://x"⟩], [],
            [("m", (BackendType.sglang, none))]⟩ "m" :=
  manual_mapping_survives_refresh
    ⟨[⟨BackendType.vllm, "http://x", "http://x"⟩], [],
      [("m", (BackendType.sglang, none))]⟩
    [(⟨BackendType.vllm, "http://x", "http://x"⟩,
      some (PyVal.pydict
        [("data", PyVal.pylist [PyVal.pydict [("id", PyVal.pystr "m")]])]))]
    "m" (BackendType.sglang, none) rfl

theorem refresh_fold_skips_failures (manual : ManualTable) :
    ∀ (responses : List (BackendEndpoint × FetchResult)) (t : DiscoveredTable),
      responses.foldl (fun disc r => refreshInstance manual disc r.1 r.2) t
        = (responses.filter (fun r => r.2.isSome)).foldl
            (fun disc r => refreshInstance manual disc r.1 r.2) t := by
  intro responses
  induction responses with
  | nil => intro t; rfl
  | cons r rest ih =>
    intro t
    cases hr : r.2 with
    | none =>
      simp only [List.foldl_cons, List.filter_cons, hr, Option.isSome_none,
        Bool.false_eq_true, if_false, refreshInstance]
      exact ih t
    | some payload =>
      simp only [List.foldl_cons, List.filter_cons, hr, Option.isSome_some, if_true]
      exact ih _

theorem foldl_refreshStep_origin (manual : ManualTable) (ep : BackendEndpoint)
    (m : String) :
    ∀ (mids : List String) (t : DiscoveredTable),
      ((mids.foldl (refreshStep manual ep) t).lookup m).isSome →
      (t.lookup m).isSome ∨ m ∈ mids := by
  intro mids
  induction mids with
  | nil => intro t h; exact Or.inl h
  | cons mid rest ih =>
    intro t h
    by_cases hmid : mid = m
    · exact Or.inr (hmid ▸ List.mem_cons_self mid rest)
    · cases ih _ h with
      | inl hsome =>
        rw [refreshStep_lookup_ne manual ep t mid m hmid] at hsome
        exact Or.inl hsome
      | inr hmem => exact Or.inr (List.mem_cons_of_mem mid hmem)

theorem refresh_fold_origin (manual : ManualTable) (m : String) :
    ∀ (responses : List (BackendEndpoint × FetchResult)) (t : DiscoveredTable),
      ((responses.foldl (fun disc r => refreshInstance manual disc r.1 r.2) t).lookup m).isSome →
      (t.lookup m).isSome
      ∨ ∃ ep payload, (ep, some payload) ∈ responses ∧ m ∈ extract_model_ids payload := by
  intro responses
  induction responses with
  | nil => intro t h; exact Or.inl h
  | cons r rest ih =>
    intro t h
    cases ih _ h with
    | inl hsome =>
      have hsome2 : ((refreshInstance manual t r.1 r.2).lookup m).isSome = true := hsome
      cases hr : r.2 with
      | none =>
        rw [hr] at hsome2
        exact Or.inl hsome2
      | some payload =>
        rw [hr] at hsome2
        cases foldl_refreshStep_origin manual r.1 m _ t hsome2 with
        | inl h2 => exact Or.inl h2
        | inr hmem =>
          have hrmem : (r.1, some payload) ∈ r :: rest := by
            rw [show (r.1, some payload) = r from by rw [← hr]]
            exact List.mem_cons_self r rest
          exact Or.inr ⟨r.1, payload, hrmem, hmem⟩
    | inr hex =>
      obtain ⟨ep, payload, hmem, hid⟩ := hex
      exact Or.inr ⟨ep, payload, List.mem_cons_of_mem r hmem, hid⟩

/-- Claim C7: a refresh replaces the discovered table wholesale.  The
committed table is exactly the table built in this pass from the given fetch
results (the previous discovered table does not enter); instances whose fetch
failed (error, timeout or non-success status) can be dropped from the pass
without changing the result, so they contribute nothing; and any model in the
new table was reported in this pass by some instance whose fetch succeeded —
a model only contributed by an earlier refresh is absent. -/
theorem refresh_replaces_table_wholesale
    (router : ModelRouter) (responses : List (BackendEndpoint × FetchResult)) :
    (applyRefresh router responses).discovered = refresh_models router.manual responses
    ∧ refresh_models router.manual responses
        = refresh_models router.manual (responses.filter (fun r => r.2.isSome))
    ∧ ∀ m, ((refresh_models router.manual responses).lookup m).isSome →
        ∃ ep payload, (ep, some payload) ∈ responses ∧ m ∈ extract_model_ids payload := by
  refine ⟨rfl, ?_, ?_⟩
  · exact refresh_fold_skips_failures router.manual responses []
  · intro m h
    cases refresh_fold_origin router.manual m responses [] h with
    | inl habs => simp [List.lookup] at habs
    | inr hex => exact hex

/-- Claim C10: `_extract_model_ids` is total on arbitrary payloads — it is a
plain function, so `refresh_models`, which feeds it every decoded payload,
raises nothing — and a string is among the extracted ids exactly when it is
the non-empty string `"id"` field of a dict entry of a list-valued `"data"`
field of a dict payload.  In particular a payload that is not a dict, whose
`"data"` is not a list, or whose entries are not dicts with a non-empty
string `"id"`, contributes no models. -/
theorem extract_model_ids_total_shape (payload : PyVal) (s : String) :
    s ∈ extract_model_ids payload ↔
      s ≠ "" ∧ ∃ entries items ientries,
        payload = PyVal.pydict entries
        ∧ dictGet "data" entries = some (PyVal.pylist items)
        ∧ PyVal.pydict ientries ∈ items
        ∧ dictGet "id" ientries = some (PyVal.pystr s) := by
  constructor
  · intro hs
    cases payload with
    | pynone => simp [extract_model_ids] at hs
    | pybool b => simp [extract_model_ids] at hs
    | pyint n => simp [extract_model_ids] at hs
    | pystr t => simp [extract_model_ids] at hs
    | pylist items => simp [extract_model_ids] at hs
    | pydict entries =>
      simp only [extract_model_ids] at hs
      rcases hdata : dictGet "data" entries with _ | v
      · rw [hdata] at hs; simp at hs
      · rw [hdata] at hs
        cases v with
        | pynone => simp at hs
        | pybool b => simp at hs
        | pyint n => simp at hs
        | pystr t => simp at hs
        | pydict e2 => simp at hs
        | pylist items =>
          simp only [List.mem_filterMap] at hs
          obtain ⟨item, hitem, hf⟩ := hs
          cases item with
          | pynone => simp at hf
          | pybool b => simp at hf
          | pyint n => simp at hf
          | pystr t => simp at hf
          | pylist l2 => simp at hf
          | pydict ientries =>
            simp only at hf
            rcases hid : dictGet "id" ientries with _ | w
            · rw [hid] at hf; simp at hf
            · rw [hid] at hf
              cases w with
              | pynone => simp at hf
              | pybool b => simp at hf
              | pyint n => simp at hf
              | pylist l2 => simp at hf
              | pydict e3 => simp at hf
              | pystr mid =>
                simp only at hf
                by_cases hmid : mid = ""
                · rw [if_pos hmid] at hf; cases hf
                · rw [if_neg hmid] at hf
                  obtain rfl : mid = s := Option.some.inj hf
                  exact ⟨hmid, entries, items, ientries, rfl, hdata, hitem, hid⟩
  · rintro ⟨hne, entries, items, ientries, rfl, hdata, hmem, hid⟩
    simp only [extract_model_ids]
    rw [hdata]
    simp only [List.mem_filterMap]
    refine ⟨PyVal.pydict ientries, hmem, ?_⟩
    simp only
    rw [hid]
    simp only [hne, if_false]

/-- A backend HTTP response as the forwarding proxy observes it
(app/vllm_client.py): the status code, the raw body text, and the outcome of
`response.json()` on that body — the decoded value, or the decode error's
message. -/
structure BackendResponse where
  status_code : Nat
  text : String
  json : Except String PyVal

/-- `forward_non_stream_request` (app/vllm_client.py:230-292), the
response-handling part: a non-200 status raises an `HTTPException` carrying
the backend's own status code and body text (lines 256-260); on a 200
response whose body fails JSON decoding, an `HTTPException` with status 500
is raised whose detail embeds the decode error and a preview of at most the
first 500 characters of the raw body, `"(空响应)"` when the body is empty
(lines 262-277); otherwise the decoded payload is returned. -/
def forward_non_stream_request (resp : BackendResponse) :
    Except HTTPException PyVal :=
  if resp.status_code ≠ 200 then
    Except.error ⟨resp.status_code, resp.text⟩
  else
    match resp.json with
    | Except.ok result => Except.ok result
    | Except.error json_error =>
      let response_text := if resp.text = "" then "(空响应)" else resp.text.take 500
      Except.error ⟨500,
        "vLLM响应解析失败: " ++ json_error ++ ". 响应预览: " ++ response_text⟩

/-- Claim C5: on every non-streaming forward whose backend status is not 200,
the raised error carries exactly the backend's status code and exactly the
backend's body — in particular it is never a generic 500 unless the backend
itself answered 500. -/
theorem forward_non_stream_propagates_backend_error
    (resp : BackendResponse) (h : resp.status_code ≠ 200) :
    forward_non_stream_request resp
      = Except.error ⟨resp.status_code, resp.text⟩ := by
  simp [forward_non_stream_request, h]

/-- Witness for C5: a backend answering 503 with body
`\x7b"error":"overloaded"\x7d` raises exactly status 503 with that body. -/
theorem forward_non_stream_propagates_backend_error_witness :
    forward_non_stream_request ⟨503, "\x7b\"error\":\"overloaded\"\x7d", Except.ok PyVal.pynone⟩
      = Except.error ⟨503, "\x7b\"error\":\"overloaded\"\x7d"⟩ :=
  forward_non_stream_propagates_backend_error
    ⟨503, "\x7b\"error\":\"overloaded\"\x7d", Except.ok PyVal.pynone⟩ (by decide)

/-- Claim C8 (counterexample): the decode-failure error is NOT of a class
distinct from the backend-error class — both paths raise the same
`HTTPException` class, and the two errors can even be equal as values.  A 200
response with body `"X"` whose JSON decoding fails with message `"bad"`
raises the very same exception as a backend that itself answers 500 with the
composed detail text as its body. -/
theorem decode_error_same_class_as_backend_error :
    forward_non_stream_request ⟨200, "X", Except.error "bad"⟩
      = forward_non_stream_request
          ⟨500, "vLLM响应解析失败: bad. 响应预览: X", Except.ok PyVal.pynone⟩ := by
  have h1 : forward_non_stream_request ⟨200, "X", Except.error "bad"⟩
      = Except.error ⟨500, "vLLM响应解析失败: " ++ "bad" ++ ". 响应预览: " ++ ("X" : String).take 500⟩ := by
    simp [forward_non_stream_request]
  have h2 : forward_non_stream_request
        ⟨500, "vLLM响应解析失败: bad. 响应预览: X", Except.ok PyVal.pynone⟩
      = Except.error ⟨500, "vLLM响应解析失败: bad. 响应预览: X"⟩ := by
    simp [forward_non_stream_request]
  rw [h1, h2]
  have htake : ("X" : String).take 500 = "X" := by
    rw [String.take_eq]
    rfl
  rw [htake]
  have happ : ("vLLM响应解析失败: " ++ "bad" ++ ". 响应预览: " ++ "X" : String)
      = "vLLM响应解析失败: bad. 响应预览: X" := by decide
  rw [happ]

/-- Claim C8 (amended): a 200 response whose body fails JSON decoding raises
an `HTTPException` — the same exception class that carries backend errors,
distinguished only by its payload — with status 500 and a detail message
embedding a preview of the raw body that is a bounded prefix of it: the first
500 characters of the body (the fixed placeholder `"(空响应)"` when the body
is empty). -/
theorem decode_failure_500_with_preview
    (resp : BackendResponse) (json_error : String)
    (hs : resp.status_code = 200) (hj : resp.json = Except.error json_error) :
    ∃ preview,
      forward_non_stream_request resp
        = Except.error ⟨500, "vLLM响应解析失败: " ++ json_error ++ ". 响应预览: " ++ preview⟩
      ∧ preview.length ≤ 500
      ∧ (resp.text ≠ "" → preview = resp.text.take 500) := by
  refine ⟨if resp.text = "" then "(空响应)" else resp.text.take 500, ?_, ?_, ?_⟩
  · simp [forward_non_stream_request, hs, hj]
  · by_cases ht : resp.text = ""
    · rw [if_pos ht]
      decide
    · rw [if_neg ht, String.take_eq]
      show (resp.text.data.take 500).length ≤ 500
      exact List.length_take_le 500 resp.text.data
  · intro ht
    rw [if_neg ht]

/-- Witness for the amended C8: a 200 response with body `"XY"` failing to
decode with message `"bad"`. -/
theorem decode_failure_500_with_preview_witness :
    ∃ preview,
      forward_non_stream_request ⟨200, "XY", Except.error "bad"⟩
        = Except.error ⟨500, "vLLM响应解析失败: " ++ "bad" ++ ". 响应预览: " ++ preview⟩
      ∧ preview.length ≤ 500
      ∧ (("XY" : String) ≠ "" → preview = ("XY" : String).take 500) :=
  decode_failure_500_with_preview ⟨200, "XY", Except.error "bad"⟩ "bad" rfl rfl

/-- A raw byte chunk of a streaming response body, as httpx's byte iterator
hands it to the relay. -/
abbrev Chunk := List Nat

/-- The synthetic SSE error event of `forward_stream_request.generate`
(app/vllm_client.py:156): the UTF-8 bytes of
`data: \x7b"error": "<detail>"\x7d\n\n`, emitted instead of the relay when
the backend status is not 200. -/
def sseErrorEvent (error_detail : String) : Chunk :=
  ("data: \x7b\"error\": \"" ++ error_detail ++ "\"\x7d\n\n").toUTF8.toList.map
    (fun b => b.toNat)

/-- The 200-status relay loop of `forward_stream_request.generate`
(app/vllm_client.py:160-178): each chunk of the backend's byte iterator is
yielded unchanged, in order, guarded by `if chunk:` (a falsy — empty — chunk
is not yielded); alongside, up to 100 chunks / 10000 bytes are copied into
`collected_data` for the off-path usage sniffing, which never alters what is
yielded. -/
def relayChunks (collected : List Chunk) : List Chunk → List Chunk
  | [] => []
  | c :: rest =>
    if c ≠ [] then
      let collected2 :=
        if collected.length < 100 ∧ collected.flatten.length < 10000 then
          collected ++ [c]
        else collected
      c :: relayChunks collected2 rest
    else relayChunks collected rest

/-- `forward_stream_request.generate` (app/vllm_client.py:122-215), as a
function of the backend's reply: on a non-200 status the error body is read
and one synthetic SSE error event is emitted; on a 200 status the chunks are
relayed. -/
def generate (status_code : Nat) (error_detail : String)
    (chunks : List Chunk) : List Chunk :=
  if status_code ≠ 200 then [sseErrorEvent error_detail]
  else relayChunks [] chunks

theorem relayChunks_eq_filter :
    ∀ (chunks : List Chunk) (collected : List Chunk),
      relayChunks collected chunks = chunks.filter (fun c => !c.isEmpty) := by
  intro chunks
  induction chunks with
  | nil => intro collected; rfl
  | cons c rest ih =>
    intro collected
    cases c with
    | nil => simpa [relayChunks] using ih collected
    | cons b bs => simp [relayChunks, List.filter, ih]

theorem flatten_filter_nonempty (chunks : List Chunk) :
    (chunks.filter (fun c => !c.isEmpty)).flatten = chunks.flatten := by
  induction chunks with
  | nil => rfl
  | cons c rest ih =>
    cases c with
    | nil => simpa using ih
    | cons b bs => simp [List.filter, ih]

/-- Claim C6 (counterexample): the relay does not deliver every chunk the
backend emits — the `if chunk:` guard drops an empty chunk.  A 200 response
whose byte iterator emits the single empty chunk is delivered as no chunks at
all, not as that one chunk. -/
theorem stream_relay_drops_empty_chunk :
    generate 200 "" [[]] = [] ∧ generate 200 "" [[]] ≠ [[]] := by
  decide

/-- Claim C6 (amended): on a 200 streaming response every nonempty chunk the
backend emits is delivered byte-for-byte and in order — the delivered
sequence is exactly the emitted sequence with empty (zero-byte) chunks
dropped — so the delivered byte stream is identical to the emitted byte
stream and nothing is re-encoded. -/
theorem stream_relay_delivers_chunks_verbatim
    (error_detail : String) (chunks : List Chunk) :
    generate 200 error_detail chunks = chunks.filter (fun c => !c.isEmpty)
    ∧ (generate 200 error_detail chunks).flatten = chunks.flatten := by
  constructor
  · simp [generate, relayChunks_eq_filter]
  · simp [generate, relayChunks_eq_filter, flatten_filter_nonempty]

/-- An exception class of the Python runtime that the supervisor's `stop`
path can encounter. -/
inductive PyErr where
  | processLookupError
  | osError
  | fileNotFoundError
  deriving DecidableEq, Repr

/-- The supervisor-visible state `VLLMManager.stop` reads and writes: the
PID file's recorded pid (`none` when the file is absent or unparsable — the
two cases `_read_pid` maps to `None`), whether the in-process
`multiprocessing` handle is alive, whether the `subprocess.Popen` handle is
alive (`poll() is None`), and whether an open log handle exists.  Ordinary
filesystem faults (permissions, disk errors) are outside this model. -/
structure ManagerState where
  pid_file : Option Int
  api_process_alive : Bool
  process_alive : Bool
  log_open : Bool
  deriving DecidableEq, Repr

/-- `os.kill(pid, sig)` as `stop`'s `_kill` helper calls it: raises
`ProcessLookupError` when no live process has that pid. -/
def os_kill (alive : Int → Bool) (pid : Int) : Except PyErr Unit :=
  if alive pid then Except.ok () else Except.error PyErr.processLookupError

/-- `stop`'s inner `_kill` (app/vllm_manager.py:597-606): `os.kill` with the
chosen signal, `ProcessLookupError` passed over and `OSError` logged as a
warning — every outcome is absorbed. -/
def stop_kill (alive : Int → Bool) (pid : Int) : Unit :=
  match os_kill alive pid with
  | Except.ok _ => ()
  | Except.error _ => ()

/-- `os.remove(self.pid_file)` inside `_remove_pid`
(app/vllm_manager.py:53-57): raises `FileNotFoundError` when the file is
absent. -/
def os_remove_pid (s : ManagerState) : Except PyErr ManagerState :=
  match s.pid_file with
  | none => Except.error PyErr.fileNotFoundError
  | some _ => Except.ok { s with pid_file := none }

/-- `VLLMManager._remove_pid`: `os.remove` with `FileNotFoundError` passed
over. -/
def remove_pid (s : ManagerState) : ManagerState :=
  match os_remove_pid s with
  | Except.ok s2 => s2
  | Except.error _ => s

/-- `VLLMManager.stop` (app/vllm_manager.py:593-634).  The recorded pid is
read (never raising); a live api-process handle is terminated and cleared,
else a live subprocess handle is terminated (escalating to `kill` when
`force`, which this state model does not distinguish from the graceful
signal), else a recorded pid is signalled through `_kill`, whose
`ProcessLookupError` (dead pid) and `OSError` are both caught; then the PID
record is removed (`FileNotFoundError` passed over) and an open log handle,
if any, is flushed and closed (`OSError`/`ValueError` caught).  Every
fallible primitive on the path is wrapped, so the call returns a state and
raises nothing. -/
def vllm_stop (alive : Int → Bool) (s : ManagerState) (_force : Bool) :
    Except PyErr ManagerState :=
  let pid := s.pid_file
  let s1 : ManagerState :=
    if s.api_process_alive then { s with api_process_alive := false }
    else if s.process_alive then { s with process_alive := false }
    else
      match pid with
      | some p =>
        let _sent := stop_kill alive p
        s
      | none => s
  let s2 := remove_pid s1
  let s3 := if s2.log_open then { s2 with log_open := false } else s2
  Except.ok s3

/-- Claim C9: `stop` never raises; after any call the PID record is cleared
(no PID file remains) and the log handle is closed; and when the backend is
already stopped (no live process handles — in particular when only a stale
pid of a dead process is recorded) the call changes nothing else and a
repeated `stop` returns the very same state, so stopping an already-stopped
backend is an error-free no-op. -/
theorem vllm_stop_eq (alive : Int → Bool) (s : ManagerState) (force : Bool) :
    vllm_stop alive s force
      = Except.ok ⟨none, false,
          if s.api_process_alive then s.process_alive else false, false⟩ := by
  obtain ⟨pf, api, proc, lg⟩ := s
  cases api <;> cases proc <;> cases lg <;> cases pf <;> rfl

theorem stop_idempotent_clears_state
    (alive : Int → Bool) (s : ManagerState) (force : Bool) :
    ∃ s2, vllm_stop alive s force = Except.ok s2
      ∧ s2.pid_file = none
      ∧ s2.log_open = false
      ∧ (s.api_process_alive = false → s.process_alive = false →
          s2 = { s with pid_file := none, log_open := false }
          ∧ vllm_stop alive s2 force = Except.ok s2) := by
  obtain ⟨pf, api, proc, lg⟩ := s
  refine ⟨⟨none, false, if api then proc else false, false⟩,
    vllm_stop_eq alive ⟨pf, api, proc, lg⟩ force, rfl, rfl, ?_⟩
  intro hapi hproc
  subst hapi
  subst hproc
  exact ⟨rfl, vllm_stop_eq alive ⟨none, false, false, false⟩ force⟩

/-- Witness for C9: a fresh supervisor instance holding only a stale PID
record of a dead process (pid 4242) and a closed log. -/
theorem stop_idempotent_clears_state_witness :
    ∃ s2, vllm_stop (fun _ => false) ⟨some 4242, false, false, true⟩ false
        = Except.ok s2
      ∧ s2.pid_file = none
      ∧ s2.log_open = false
      ∧ (false = false → false = false →
          s2 = ⟨none, false, false, false⟩
          ∧ vllm_stop (fun _ => false) s2 false = Except.ok s2) :=
  stop_idempotent_clears_state (fun _ => false) ⟨some 4242, false, false, true⟩ false

end LLMHost
